import Mathlib

/-!
Verification of the hybrid fraud-detection and cardholder-ranking services.

This file gives a shallow embedding, in Lean, of the scoring logic of the
repository: the rule-based fraud detector (`src/rule_based_detector.py`),
the hybrid detector (`src/true_hybrid_detector.py`), the Flask endpoints of
`server.py`, and the FastAPI ranking endpoints of `api/ranking_api.py`.

Modelling conventions:
* Python dictionaries standing for transactions are embedded as structures
  whose fields are `Option`-valued: `none` models an absent key, and an
  access `transaction[k]` is a `getKey` call in the `Except Unit` monad,
  where `Except.error ()` models a raised `KeyError`.
* Machine floats are embedded as rationals (`ℚ`); all comparisons and the
  weighted blend are exact rational arithmetic.
* The trained classifiers loaded from pickle files are opaque third-party
  artefacts; they are embedded as oracle parameters (a function from the
  prepared feature record to `Except Unit ℚ`, where an `error` models an
  exception raised by `predict_proba`).
* A `try/except` block is embedded by running the body in `Except Unit` and
  mapping `error` to the handler's fixed fallback value.
-/

/-- A transaction record (a Python dict).  A field holds `none` when the
corresponding key is absent from the dict.  `timestamp_dow` stands for the
day-of-week the pandas timestamp parser would derive from the `timestamp`
string (the source falls back to `0` when parsing fails). -/
structure Transaction where
  user_id : Option String
  amount : Option ℚ
  merchant_category : Option String
  city : Option String
  device_type : Option String
  payment_method : Option String
  hour_of_day : Option ℤ
  hour : Option ℤ
  day_of_week : Option ℤ
  timestamp_dow : ℤ
  deriving DecidableEq, Repr

/-- The per-user in-memory history mapping `self.user_histories`.  A user
absent from the Python dict is mapped to `[]`; the source distinguishes the
two only to create the empty list on first insertion, which is
observationally the same. -/
abbrev Histories := String → List Transaction

deriving instance DecidableEq for Except

/-- `d[k]` on a Python dict: raises `KeyError` when the key is absent. -/
def getKey {α : Type} : Option α → Except Unit α
  | some a => .ok a
  | none => .error ()

/-- `FRAUD_THRESHOLDS` from `src/config.py` (lines 32-35): the dict defines
only the keys `low_risk` (0.2) and `high_risk` (0.5). -/
def FRAUD_THRESHOLDS (k : String) : Option ℚ :=
  if k = "low_risk" then some (2/10)
  else if k = "high_risk" then some (5/10)
  else none

/-- `FRAUD_THRESHOLDS[k]`, raising `KeyError` for undefined keys. -/
def getThreshold (k : String) : Except Unit ℚ :=
  getKey (FRAUD_THRESHOLDS k)

namespace RuleBasedFraudDetector

/-- The result dict of `RuleBasedFraudDetector.detect_fraud`.
`rule_analysis` keeps the names of the triggered rules; `hadError` records
whether the dict is the one built by the `except` branch (which carries an
`error` key in the source). -/
structure RBResult where
  risk_score : ℚ
  risk_level : String
  requires_verification : Bool
  block_transaction : Bool
  message : Option String
  rule_analysis : List String
  hadError : Bool
  deriving DecidableEq, Repr

/-- The statistics dict built by `get_user_statistics` (lines 59-66). -/
structure UserStats where
  avg_amount : ℚ
  max_amount : ℚ
  common_hours : List ℤ
  common_cities : List String
  common_devices : List String
  transaction_count : ℕ
  deriving DecidableEq, Repr

/-- `np.mean` over a list of amounts. -/
def listMean (l : List ℚ) : ℚ := l.sum / l.length

/-- `np.max` over a list of amounts (only applied to lists of length ≥ 3). -/
def listMax (l : List ℚ) : ℚ := l.foldl max (l.headD 0)

/-- `add_transaction_to_history` (lines 45-50): append the transaction to
the user's list, creating it if needed. -/
def add_transaction_to_history (h : Histories) (uid : String) (tx : Transaction) :
    Histories :=
  fun u => if u = uid then h u ++ [tx] else h u

/-- A Python list comprehension `[tx[k] for tx in history]`: collects the
key's value from every element, raising `KeyError` at the first element
missing it. -/
def collectKey {α : Type} (f : Transaction → Option α) :
    List Transaction → Except Unit (List α)
  | [] => .ok []
  | tx :: rest => do
    let a ← getKey (f tx)
    let as ← collectKey f rest
    .ok (a :: as)

/-- `get_user_statistics` (lines 52-68): `none` for a user with fewer than 3
recorded transactions; otherwise the stats dict.  The list comprehensions
over the history read the keys `amount`, `hour`, `city` and `device_type`
of every past transaction and raise `KeyError` when one is absent.
`common_hours`/`common_cities`/`common_devices` are `list(set(...))` in the
source; `dedup` preserves exactly the membership of those sets. -/
def get_user_statistics (h : Histories) (uid : String) :
    Except Unit (Option UserStats) :=
  if (h uid).length < 3 then .ok none
  else do
    let hist := h uid
    let amounts ← collectKey (fun tx => tx.amount) hist
    let hours ← collectKey (fun tx => tx.hour) hist
    let cities ← collectKey (fun tx => tx.city) hist
    let devices ← collectKey (fun tx => tx.device_type) hist
    .ok (some
      { avg_amount := listMean amounts
        max_amount := listMax amounts
        common_hours := hours.dedup
        common_cities := cities.dedup
        common_devices := devices.dedup
        transaction_count := hist.length })

/-- Rule 1 condition (lines 107-109): `transaction['hour']` is read only
when the amount test already passed (Python `and` short-circuits). -/
def rule1HighAmountNight (tx : Transaction) (amt : ℚ) : Except Unit Bool :=
  if (15000 : ℚ) ≤ amt then do
    let hr ← getKey tx.hour
    pure (decide ((2 : ℤ) ≤ hr) && decide (hr ≤ 5))
  else pure false

/-- Rule 2 condition (lines 121-122). -/
def rule2VeryHighAmountDifferentCity (stats : UserStats) (tx : Transaction)
    (amt : ℚ) : Except Unit Bool :=
  if (30000 : ℚ) ≤ amt then do
    let c ← getKey tx.city
    pure (!stats.common_cities.contains c)
  else pure false

/-- Rule 3 condition (lines 134-135). -/
def rule3HighAmountDifferentDevice (stats : UserStats) (tx : Transaction)
    (amt : ℚ) : Except Unit Bool :=
  if (20000 : ℚ) ≤ amt then do
    let d ← getKey tx.device_type
    pure (!stats.common_devices.contains d)
  else pure false

/-- Lines 101-198 of `detect_fraud`: the five fraud rules, the block
decision and the risk level, given the user statistics.  Rule 4 reads
`transaction['hour']` unconditionally; the block decision at line 172
reads `FRAUD_THRESHOLDS['block_threshold']`, a key the config does not
define, so that lookup raises `KeyError`. -/
def applyFraudRules (stats : UserStats) (tx : Transaction) : Except Unit RBResult := do
  let amt ← getKey tx.amount
  let r1 ← rule1HighAmountNight tx amt
  let r2 ← rule2VeryHighAmountDifferentCity stats tx amt
  let r3 ← rule3HighAmountDifferentDevice stats tx amt
  let hr4 ← getKey tx.hour
  let r4 := !stats.common_hours.contains hr4
  let r5 := decide (stats.avg_amount * 5 < amt)
  let triggered : List (String × ℚ) :=
    (if r1 then [("high_amount_night", 85/100)] else []) ++
    (if r2 then [("very_high_amount_different_city", 90/100)] else []) ++
    (if r3 then [("high_amount_different_device", 80/100)] else []) ++
    (if r4 then [("unusual_time_pattern", 40/100)] else []) ++
    (if r5 then [("amount_spike", 40/100)] else [])
  let max_risk_score := (triggered.map Prod.snd).foldl max 0
  let num_rules_triggered := triggered.length
  let block_threshold ← getThreshold "block_threshold"
  let block_transaction :=
    decide (block_threshold ≤ max_risk_score) &&
      (decide (2 ≤ num_rules_triggered) || decide ((9/10 : ℚ) ≤ max_risk_score))
  let high_risk ← getThreshold "high_risk"
  let low_risk ← getThreshold "low_risk"
  let risk_level :=
    if max_risk_score = 0 then "LOW"
    else if block_threshold ≤ max_risk_score then "HIGH"
    else if high_risk ≤ max_risk_score then "HIGH"
    else "MEDIUM"
  .ok
    { risk_score := max_risk_score
      risk_level := risk_level
      requires_verification := decide (low_risk < max_risk_score)
      block_transaction := block_transaction
      message := none
      rule_analysis := triggered.map Prod.fst
      hadError := false }

/-- The dict returned at lines 92-99 for users with insufficient history. -/
def insufficientHistoryResult : RBResult :=
  { risk_score := 1/10
    risk_level := "LOW"
    requires_verification := false
    block_transaction := false
    message := some "Insufficient transaction history"
    rule_analysis := []
    hadError := false }

/-- The dict returned by the `except` branch at lines 199-206. -/
def ruleExceptionResult : RBResult :=
  { risk_score := 1/10
    risk_level := "LOW"
    requires_verification := false
    block_transaction := false
    message := none
    rule_analysis := []
    hadError := true }

/-- The body of the `try` block of `detect_fraud` (lines 87-198). -/
def detectBody (h : Histories) (uid : String) (tx : Transaction) :
    Except Unit RBResult := do
  let stats? ← get_user_statistics h uid
  match stats? with
  | none => .ok insufficientHistoryResult
  | some stats => applyFraudRules stats tx

/-- `RuleBasedFraudDetector.detect_fraud` (lines 85-206): run the body and
fall back to the fixed exception dict on any raised exception. -/
def detect_fraud (h : Histories) (uid : String) (tx : Transaction) : RBResult :=
  match detectBody h uid tx with
  | .ok r => r
  | .error _ => ruleExceptionResult

end RuleBasedFraudDetector

namespace TrueHybridFraudDetector

/-- The feature dict built by `_prepare_ml_features` (lines 118-196).
`amount_log` and `amount_sqrt` (real-valued library transforms of
`amount`) are omitted: they are functions of `amount` alone and are
consumed only by the opaque classifier oracle below. -/
structure MLFeatures where
  amount : ℚ
  hour_of_day : ℤ
  merchant_category : String
  city : String
  payment_method : String
  day_of_week : ℤ
  amount_bin : ℕ
  is_night : Bool
  is_weekend : Bool
  is_business_hours : Bool
  is_high_risk_category : Bool
  is_high_risk_city : Bool
  is_high_amount : Bool
  is_very_high_amount : Bool
  high_amount_high_risk : Bool
  night_high_amount : Bool
  deriving DecidableEq, Repr

/-- The amount binning of lines 147-170 (bins 0-9 at 10000-wide steps). -/
def amountBin (amount : ℚ) : ℕ :=
  if amount ≤ 10000 then 0
  else if amount ≤ 20000 then 1
  else if amount ≤ 30000 then 2
  else if amount ≤ 40000 then 3
  else if amount ≤ 50000 then 4
  else if amount ≤ 60000 then 5
  else if amount ≤ 70000 then 6
  else if amount ≤ 80000 then 7
  else if amount ≤ 90000 then 8
  else 9

/-- `_prepare_ml_features` (lines 118-196): build the feature dict from the
transaction; the enclosing `try/except` returns `None` when a required key
(`amount`, `hour_of_day`, `merchant_category`, `city`, `payment_method`) is
absent.  The unused `user_history` parameter of the source is dropped.
`day_of_week` falls back to the timestamp-derived day (0 when parsing
fails). -/
def prepare_ml_features (tx : Transaction) : Option MLFeatures :=
  match tx.amount, tx.hour_of_day, tx.merchant_category, tx.city, tx.payment_method with
  | some amount, some hod, some mc, some city, some pm =>
    let dow := tx.day_of_week.getD tx.timestamp_dow
    let is_night := decide ((22 : ℤ) ≤ hod) || decide (hod ≤ 6)
    let is_high_amount := decide ((50000 : ℚ) < amount)
    let is_high_risk_category :=
      ["Electronics", "Jewelry", "Travel Agency", "Insurance"].contains mc
    some
      { amount := amount
        hour_of_day := hod
        merchant_category := mc
        city := city
        payment_method := pm
        day_of_week := dow
        amount_bin := amountBin amount
        is_night := is_night
        is_weekend := decide (dow = 5) || decide (dow = 6)
        is_business_hours := decide ((9 : ℤ) ≤ hod) && decide (hod ≤ 17)
        is_high_risk_category := is_high_risk_category
        is_high_risk_city :=
          ["New York", "Los Angeles", "Chicago", "Miami", "Las Vegas"].contains city
        is_high_amount := is_high_amount
        is_very_high_amount := decide ((100000 : ℚ) < amount)
        high_amount_high_risk := is_high_amount && is_high_risk_category
        night_high_amount := is_night && is_high_amount }
  | _, _, _, _, _ => none

/-- The loaded classifier together with its preprocessing (label encoding,
scaling, `predict_proba`): an oracle from the prepared features to the
fraud probability.  `Except.error` models an exception raised by
`predict_proba` (the encoding and scaling steps catch their own errors in
the source and so cannot fail the prediction). -/
abbrev MLModel := MLFeatures → Except Unit ℚ

/-- `_get_ml_prediction` (lines 198-258): 0.5 when no model is loaded, 0.5
when feature preparation fails, the predicted probability otherwise, with
0.5 on a prediction exception.  The `user_history` argument is ignored by
the source's feature preparation. -/
def get_ml_prediction (model : Option MLModel) (tx : Transaction)
    (_userHistory : List Transaction) : ℚ :=
  match model with
  | none => 1/2
  | some m =>
    match prepare_ml_features tx with
    | none => 1/2
    | some f =>
      match m f with
      | .ok s => s
      | .error _ => 1/2

/-- `_get_rule_prediction` (lines 260-267): the rule detector's
`risk_score` (the rule detector never raises, and its result dict always
carries a `risk_score` key, so neither the `except` branch nor the `.get`
default 0.5 is ever exercised). -/
def get_rule_prediction (h : Histories) (uid : String) (tx : Transaction) : ℚ :=
  (RuleBasedFraudDetector.detect_fraud h uid tx).risk_score

/-- `self.ml_weight` set in `__init__` (line 44). -/
def ml_weight : ℚ := 7/10

/-- `self.rule_weight` set in `__init__` (line 45). -/
def rule_weight : ℚ := 3/10

/-- The `analysis` dict built at lines 295-301. -/
structure HybridAnalysis where
  ml_score : ℚ
  rule_score : ℚ
  hybrid_score : ℚ
  ml_weight : ℚ
  rule_weight : ℚ
  deriving DecidableEq, Repr

/-- The result dict of `TrueHybridFraudDetector.detect_fraud`.  The reason
strings drop the interpolated numeric values of the source's f-strings;
`hadError` records whether the dict is the `except`-branch one (which
carries an `error` key). -/
structure HybridResult where
  risk_score : ℚ
  risk_level : String
  requires_verification : Bool
  block_transaction : Bool
  detection_method : String
  ml_score : ℚ
  rule_score : ℚ
  hybrid_analysis : Option HybridAnalysis
  reasons : List String
  confidence : Option String
  hadError : Bool
  deriving DecidableEq, Repr

/-- The body of the `try` block of `detect_fraud` (lines 271-325).  The
only raising operations are the reason-building accesses
`transaction['amount']` (line 309) and `transaction['hour_of_day']`
(line 311); every other step catches its own exceptions. -/
def detectBody (model : Option MLModel) (h : Histories) (uid : String)
    (tx : Transaction) : Except Unit HybridResult := do
  let user_history := h uid
  let ml_score := get_ml_prediction model tx user_history
  let rule_score := get_rule_prediction h uid tx
  let hybrid_score := ml_weight * ml_score + rule_weight * rule_score
  let flag := decide ((3/10 : ℚ) ≤ ml_score) || decide ((3/10 : ℚ) ≤ rule_score) ||
    decide ((2/5 : ℚ) ≤ hybrid_score)
  let risk_level := if flag then "HIGH" else "LOW"
  match tx.amount, tx.hour_of_day with
  | none, _ => .error ()
  | some _, none => .error ()
  | some amt, some hod =>
  let reasons :=
    (if (3/10 : ℚ) < ml_score then ["ML model indicates possible fraud"] else []) ++
    (if (3/10 : ℚ) < rule_score then ["Rule-based system flags as possible fraud"] else []) ++
    (if (50000 : ℚ) < amt then ["High amount transaction"] else []) ++
    (if [1, 2, 3, 4, 5].contains hod then ["Suspicious time"] else [])
  .ok
    { risk_score := hybrid_score
      risk_level := risk_level
      requires_verification := flag
      block_transaction := flag
      detection_method := "hybrid_ml_rule"
      ml_score := ml_score
      rule_score := rule_score
      hybrid_analysis := some
        { ml_score := ml_score
          rule_score := rule_score
          hybrid_score := hybrid_score
          ml_weight := ml_weight
          rule_weight := rule_weight }
      reasons := reasons
      confidence := some (if risk_level = "HIGH" then "high" else "low")
      hadError := false }

/-- The dict returned by the `except` branch at lines 327-338. -/
def hybridExceptionResult : HybridResult :=
  { risk_score := 1/2
    risk_level := "MEDIUM"
    requires_verification := true
    block_transaction := false
    detection_method := "error"
    ml_score := 1/2
    rule_score := 1/2
    hybrid_analysis := none
    reasons := []
    confidence := none
    hadError := true }

/-- `TrueHybridFraudDetector.detect_fraud` (lines 269-338). -/
def detect_fraud (model : Option MLModel) (h : Histories) (uid : String)
    (tx : Transaction) : HybridResult :=
  match detectBody model h uid tx with
  | .ok r => r
  | .error _ => hybridExceptionResult

/-- `TrueHybridFraudDetector.add_transaction_to_history` (lines 340-342):
delegates to the rule detector's history. -/
def add_transaction_to_history (h : Histories) (uid : String) (tx : Transaction) :
    Histories :=
  RuleBasedFraudDetector.add_transaction_to_history h uid tx

end TrueHybridFraudDetector

namespace FraudServer

/-- `validate_transaction_data` (`server.py` lines 55-89): checks that the
seven required keys are present, then the range constraints.  The data-type
conversion checks of the source are identities here because the embedded
dict fields are already typed. -/
def validate_transaction_data (d : Transaction) : Except String Unit :=
  let missing :=
    (if d.user_id.isNone then ["user_id"] else []) ++
    (if d.amount.isNone then ["amount"] else []) ++
    (if d.merchant_category.isNone then ["merchant_category"] else []) ++
    (if d.city.isNone then ["city"] else []) ++
    (if d.device_type.isNone then ["device_type"] else []) ++
    (if d.payment_method.isNone then ["payment_method"] else []) ++
    (if d.hour_of_day.isNone then ["hour_of_day"] else [])
  if missing ≠ [] then
    .error ("Missing required fields: " ++ String.intercalate ", " missing)
  else if d.amount.getD 0 < 0 then
    .error "Amount must be non-negative"
  else if ¬((0 : ℤ) ≤ d.hour_of_day.getD 0 ∧ d.hour_of_day.getD 0 ≤ 23) then
    .error "Hour of day must be between 0 and 23"
  else .ok ()

/-- `prepare_transaction_data` (`server.py` lines 91-103): the normalized
dict holds exactly the keys `user_id`, `amount`, `merchant_category`,
`city`, `device_type`, `payment_method`, `hour_of_day` and `timestamp` —
in particular no `hour` and no `day_of_week` key. -/
def prepare_transaction_data (d : Transaction) : Transaction :=
  { user_id := d.user_id
    amount := d.amount
    merchant_category := d.merchant_category
    city := d.city
    device_type := d.device_type
    payment_method := d.payment_method
    hour_of_day := d.hour_of_day
    hour := none
    day_of_week := none
    timestamp_dow := d.timestamp_dow }

/-- The names visible at the call `detector.detect_fraud(user_id,
transaction)` in `detect_fraud_batch` (`server.py` line 246): the locals
bound in the handler and loop body up to that line, together with the
module-level globals of `server.py`.  None of them is `user_id` — the
handler never binds that name. -/
def batchScopeNames : List String :=
  ["data", "transactions", "results", "errors", "i", "transaction_data",
   "is_valid", "validation_message", "transaction",
   "detector", "app", "logger", "np", "datetime", "traceback",
   "validate_transaction_data", "prepare_transaction_data",
   "initialize_detector", "TrueHybridFraudDetector"]

/-- Python name resolution: a `NameError` is raised when the name is bound
in no enclosing scope. -/
def lookupLocal (env : List String) (n : String) : Except String Unit :=
  if env.contains n then .ok ()
  else .error ("NameError: name " ++ n ++ " is not defined")

/-- A per-transaction entry of the `errors` list of the batch endpoint:
either a validation failure (lines 236-239) or a caught processing
exception (lines 266-270, prefixed `Processing error:` in the source). -/
inductive BatchErr where
  | validation (msg : String)
  | processing (msg : String)
  deriving DecidableEq, Repr

/-- The JSON body returned by `/detect/batch` (lines 274-285): results,
errors and the summary counters. -/
structure BatchResponse where
  results : List (ℕ × TrueHybridFraudDetector.HybridResult)
  errors : List (ℕ × BatchErr)
  total_transactions : ℕ
  successful : ℕ
  failed : ℕ
  blocked : ℕ
  allowed : ℕ
  deriving DecidableEq, Repr

/-- The loop of `detect_fraud_batch` (lines 231-270), threading the index
and the detector's history.  After a transaction validates, the call at
line 246 reads the name `user_id`, which is bound nowhere in scope, so a
`NameError` is raised and caught by the per-item handler.  The success
branch is written as the source would behave were the name bound (it is
unreachable). -/
def batchLoop (model : Option TrueHybridFraudDetector.MLModel) :
    Histories → ℕ → List Transaction →
      Histories × List (ℕ × TrueHybridFraudDetector.HybridResult) × List (ℕ × BatchErr)
  | h, _, [] => (h, [], [])
  | h, i, d :: ds =>
    match validate_transaction_data d with
    | .error msg =>
      let rest := batchLoop model h (i + 1) ds
      (rest.1, rest.2.1, (i, .validation msg) :: rest.2.2)
    | .ok _ =>
      let tx := prepare_transaction_data d
      match lookupLocal batchScopeNames "user_id" with
      | .error e =>
        let rest := batchLoop model h (i + 1) ds
        (rest.1, rest.2.1, (i, .processing e) :: rest.2.2)
      | .ok _ =>
        let uid := tx.user_id.getD ""
        let r := TrueHybridFraudDetector.detect_fraud model h uid tx
        let h1 := TrueHybridFraudDetector.add_transaction_to_history h uid tx
        let rest := batchLoop model h1 (i + 1) ds
        (rest.1, (i, r) :: rest.2.1, rest.2.2)

/-- `detect_fraud_batch` (`server.py` lines 201-292) after the JSON-shape
checks: rejects batches above 100 transactions, otherwise runs the loop
and assembles the summary (`successful`/`failed`/`blocked`/`allowed` as at
lines 277-283). -/
def detect_fraud_batch (model : Option TrueHybridFraudDetector.MLModel)
    (h : Histories) (txs : List Transaction) : Except String BatchResponse :=
  if 100 < txs.length then
    .error "Batch size too large. Maximum 100 transactions allowed."
  else
    let out := batchLoop model h 0 txs
    .ok
      { results := out.2.1
        errors := out.2.2
        total_transactions := txs.length
        successful := out.2.1.length
        failed := out.2.2.length
        blocked := (out.2.1.filter (fun p => p.2.block_transaction)).length
        allowed := (out.2.1.filter (fun p => !p.2.block_transaction)).length }

end FraudServer

namespace RankingApi

/-- The cardholder fields that `rank_cardholders` copies into each result
dict (`ranking_api.py` lines 155-167); the constant columns added by
`prepare_cardholder_data` are absorbed into the score oracle. -/
structure Cardholder where
  cardholder_id : String
  credit_limit : ℚ
  avg_repayment_days : ℚ
  transaction_success_rate : ℚ
  response_time_sec : ℚ
  discount_hit_rate : ℚ
  commission_acceptance : ℚ
  user_rating : ℤ
  default_count : ℤ
  deriving DecidableEq, Repr

/-- One entry of the ranked list: the copied cardholder fields, the
classifier's probability (`health_score`) and the assigned rank. -/
structure RankedCardholder where
  data : Cardholder
  health_score : ℚ
  rank : ℕ
  deriving DecidableEq, Repr

/-- Erase the rank assignment of a ranked entry (restoring the placeholder
0 it carried before sorting), for stating permutation facts. -/
def clearRank (r : RankedCardholder) : RankedCardholder := { r with rank := 0 }

/-- `feature_engineer.transform` composed with
`model.predict_proba(X)[:, 1]` (lines 147-150): an oracle from a
cardholder row to its health score. -/
abbrev HealthModel := Cardholder → ℚ

/-- One result dict as first built at lines 155-168: score attached,
`rank` still the placeholder 0. -/
def scoreCardholder (model : HealthModel) (c : Cardholder) : RankedCardholder :=
  { data := c, health_score := model c, rank := 0 }

/-- The rank-assignment loop at lines 172-173: the i-th entry (0-based) of
the sorted list gets rank `i + 1`. -/
def assignRanks : ℕ → List RankedCardholder → List RankedCardholder
  | _, [] => []
  | i, r :: rs => { r with rank := i } :: assignRanks (i + 1) rs

/-- `rank_cardholders` (lines 137-175): score every cardholder, sort by
health score in decreasing order (Python's stable `sort` with
`reverse=True`, embedded as a stable merge sort with the reversed
comparison), then assign ranks 1, 2, ... -/
def rank_cardholders (model : HealthModel) (cs : List Cardholder) :
    List RankedCardholder :=
  let results := cs.map (scoreCardholder model)
  let sorted := results.mergeSort (fun a b => decide (b.health_score ≤ a.health_score))
  assignRanks 1 sorted

/-- An HTTP error response raised by an endpoint. -/
structure ApiError where
  status : ℕ
  detail : String
  deriving DecidableEq, Repr

/-- The JSON body returned by `/rank-top` (lines 269-276), less the
request id, timestamp and timing. -/
structure RankTopResponse where
  total_cardholders : ℕ
  top_k : ℤ
  top_cardholders : List RankedCardholder
  deriving DecidableEq, Repr

/-- `get_top_cardholders` (`/rank-top`, lines 249-279): reject `top_k`
outside [1, 100] with HTTP 400, otherwise rank the batch and slice the
first `top_k` entries (`ranked_results[:top_k]`);
`total_cardholders` is the length of the full ranked list. -/
def get_top_cardholders (model : HealthModel) (cs : List Cardholder)
    (top_k : ℤ) : Except ApiError RankTopResponse :=
  if top_k < 1 ∨ 100 < top_k then
    .error { status := 400, detail := "top_k must be between 1 and 100" }
  else
    let ranked := rank_cardholders model cs
    .ok
      { total_cardholders := ranked.length
        top_k := top_k
        top_cardholders := ranked.take top_k.toNat }

end RankingApi

/-! ### Concrete sample inputs used by the witnesses -/

/-- A fully populated API-style transaction dict (as built by
`prepare_transaction_data`: `hour_of_day` present, no `hour` key). -/
def txFull : Transaction :=
  { user_id := some "u1"
    amount := some 100
    merchant_category := some "Grocery"
    city := some "Delhi"
    device_type := some "mobile"
    payment_method := some "card"
    hour_of_day := some 10
    hour := none
    day_of_week := none
    timestamp_dow := 0 }

/-- The same dict with the `amount` key removed. -/
def txNoAmount : Transaction := { txFull with amount := none }

/-- An empty history mapping. -/
def histEmpty : Histories := fun _ => []

/-- A history mapping in which user `u1` has three recorded API-style
transactions. -/
def hist3 : Histories := fun u => if u = "u1" then [txFull, txFull, txFull] else []

/-- A classifier oracle whose `predict_proba` always raises. -/
def mlFail : TrueHybridFraudDetector.MLModel := fun _ => .error ()

/-- The feature record `_prepare_ml_features` builds for `txFull`. -/
def mlFeaturesFull : TrueHybridFraudDetector.MLFeatures :=
  { amount := 100
    hour_of_day := 10
    merchant_category := "Grocery"
    city := "Delhi"
    payment_method := "card"
    day_of_week := 0
    amount_bin := 0
    is_night := false
    is_weekend := false
    is_business_hours := true
    is_high_risk_category := false
    is_high_risk_city := false
    is_high_amount := false
    is_very_high_amount := false
    high_amount_high_risk := false
    night_high_amount := false }

/-- The hybrid result for `detect_fraud` on `txFull` with no loaded model
and an empty history: ml 0.5, rule 0.1 (insufficient history), hybrid
0.7 * 0.5 + 0.3 * 0.1 = 0.38, flagged HIGH because ml ≥ 0.3. -/
def hybridResultFull : TrueHybridFraudDetector.HybridResult :=
  { risk_score := 19/50
    risk_level := "HIGH"
    requires_verification := true
    block_transaction := true
    detection_method := "hybrid_ml_rule"
    ml_score := 1/2
    rule_score := 1/10
    hybrid_analysis := some
      { ml_score := 1/2
        rule_score := 1/10
        hybrid_score := 19/50
        ml_weight := 7/10
        rule_weight := 3/10 }
    reasons := ["ML model indicates possible fraud"]
    confidence := some "high"
    hadError := false }

/-- A sample cardholder row. -/
def cardEx : RankingApi.Cardholder :=
  { cardholder_id := "c1"
    credit_limit := 100000
    avg_repayment_days := 10
    transaction_success_rate := 9/10
    response_time_sec := 2
    discount_hit_rate := 1/2
    commission_acceptance := 3/4
    user_rating := 4
    default_count := 0 }

/-- A health-score oracle returning 0.5 for every cardholder. -/
def constHealth : RankingApi.HealthModel := fun _ => 1/2

/-! ### Helper lemmas on `Except` chains -/

@[simp] theorem getKey_some {α : Type} (a : α) : getKey (some a) = .ok a := rfl

@[simp] theorem getKey_none {α : Type} : (getKey none : Except Unit α) = .error () := rfl

@[simp] theorem exBind_ok {ε α β : Type} (a : α) (f : α → Except ε β) :
    (Except.ok a >>= f : Except ε β) = f a := rfl

@[simp] theorem exBind_err {ε α β : Type} (e : ε) (f : α → Except ε β) :
    (Except.error e >>= f : Except ε β) = Except.error e := rfl

@[simp] theorem exPure_ok {ε α : Type} (a : α) :
    (pure a : Except ε α) = Except.ok a := rfl

theorem exBind_congr_error {α β : Type} (x : Except Unit α)
    (f : α → Except Unit β) (hf : ∀ a, f a = .error ()) :
    x >>= f = .error () := by
  cases x with
  | ok a => exact hf a
  | error e => cases e; rfl

theorem exBind_ne_ok_none {α β : Type} (x : Except Unit α)
    (f : α → Except Unit (Option β)) (hf : ∀ a, f a ≠ .ok none) :
    x >>= f ≠ .ok none := by
  cases x with
  | ok a => exact hf a
  | error e => exact fun hcon => Except.noConfusion hcon

/-! ### The rule-based detector always raises once statistics exist -/

namespace RuleBasedFraudDetector

/-- Once user statistics are available, the rule evaluation always raises:
every path either fails a `transaction['hour']` access or reaches the
`FRAUD_THRESHOLDS['block_threshold']` lookup of line 172, and that key is
not defined by the config. -/
theorem applyFraudRules_error (stats : UserStats) (tx : Transaction) :
    applyFraudRules stats tx = .error () := by
  unfold applyFraudRules
  refine exBind_congr_error _ _ fun amt => ?_
  refine exBind_congr_error _ _ fun r1 => ?_
  refine exBind_congr_error _ _ fun r2 => ?_
  refine exBind_congr_error _ _ fun r3 => ?_
  refine exBind_congr_error _ _ fun hr4 => ?_
  rfl

/-- `get_user_statistics` on a user with fewer than 3 transactions. -/
theorem get_user_statistics_of_short (h : Histories) (uid : String)
    (hlen : (h uid).length < 3) : get_user_statistics h uid = .ok none := by
  unfold get_user_statistics
  simp [hlen]

/-- `get_user_statistics` on a user with at least 3 transactions never
returns the `None` marker: it either raises or yields a statistics dict. -/
theorem get_user_statistics_ne_ok_none (h : Histories) (uid : String)
    (hlen : 3 ≤ (h uid).length) : get_user_statistics h uid ≠ .ok none := by
  unfold get_user_statistics
  rw [if_neg (by omega)]
  refine exBind_ne_ok_none _ _ fun amounts => ?_
  refine exBind_ne_ok_none _ _ fun hours => ?_
  refine exBind_ne_ok_none _ _ fun cities => ?_
  refine exBind_ne_ok_none _ _ fun devices => ?_
  intro hcon
  exact Option.noConfusion (Except.ok.inj hcon)

/-- For a user with at least 3 recorded transactions the whole `try` body
of the rule-based `detect_fraud` raises, whatever the transaction. -/
theorem detectBody_error_of_history (h : Histories) (uid : String)
    (tx : Transaction) (hlen : 3 ≤ (h uid).length) :
    detectBody h uid tx = .error () := by
  unfold detectBody
  cases hs : get_user_statistics h uid with
  | error e => cases e; rfl
  | ok stats? =>
    cases stats? with
    | none => exact absurd hs (get_user_statistics_ne_ok_none h uid hlen)
    | some stats =>
      show (Except.ok (some stats) : Except Unit (Option UserStats)) >>= _ = _
      rw [show ∀ f : Option UserStats → Except Unit RBResult,
            (Except.ok (some stats) : Except Unit (Option UserStats)) >>= f
              = f (some stats) from fun _ => rfl]
      exact applyFraudRules_error stats tx

/-- For a user with at least 3 recorded transactions, `detect_fraud`
returns the fixed exception-fallback dict, whatever the transaction. -/
theorem detect_fraud_of_history (h : Histories) (uid : String)
    (tx : Transaction) (hlen : 3 ≤ (h uid).length) :
    detect_fraud h uid tx = ruleExceptionResult := by
  unfold detect_fraud
  rw [detectBody_error_of_history h uid tx hlen]

/-- For a user with fewer than 3 recorded transactions, `detect_fraud`
returns the insufficient-history dict, whatever the transaction. -/
theorem detect_fraud_of_short (h : Histories) (uid : String)
    (tx : Transaction) (hlen : (h uid).length < 3) :
    detect_fraud h uid tx = insufficientHistoryResult := by
  unfold detect_fraud detectBody
  rw [get_user_statistics_of_short h uid hlen]
  rfl

/-- Every result of the rule-based `detect_fraud` carries risk score 0.1:
both reachable outcome dicts (insufficient history and exception fallback)
use that constant. -/
theorem detect_fraud_risk_score (h : Histories) (uid : String)
    (tx : Transaction) : (detect_fraud h uid tx).risk_score = 1/10 := by
  rcases lt_or_le (h uid).length 3 with hlt | hle
  · rw [detect_fraud_of_short h uid tx hlt]
    rfl
  · rw [detect_fraud_of_history h uid tx hle]
    rfl

end RuleBasedFraudDetector

/-! ### Claims about the hybrid detector -/

namespace TrueHybridFraudDetector

/-- C1: on the non-exception path of `TrueHybridFraudDetector.detect_fraud`
the returned `risk_score` is the weighted blend
`ml_weight * ml_score + rule_weight * rule_score` of the ML probability and
the rule engine's risk score computed in that same call, and the returned
`ml_score`, `rule_score`, `ml_weight` and `rule_weight` fields report
exactly those values. -/
theorem hybrid_score_weighted_blend (model : Option MLModel) (h : Histories)
    (uid : String) (tx : Transaction) (r : HybridResult)
    (hok : detectBody model h uid tx = .ok r) :
    r.risk_score = ml_weight * get_ml_prediction model tx (h uid) +
      rule_weight * get_rule_prediction h uid tx ∧
    r.ml_score = get_ml_prediction model tx (h uid) ∧
    r.rule_score = get_rule_prediction h uid tx ∧
    r.hybrid_analysis = some
      { ml_score := r.ml_score
        rule_score := r.rule_score
        hybrid_score := r.risk_score
        ml_weight := ml_weight
        rule_weight := rule_weight } := by
  rcases hA : tx.amount with _ | amt
  · simp [detectBody, hA] at hok
  · rcases hH : tx.hour_of_day with _ | hod
    · simp [detectBody, hA, hH] at hok
    · simp only [detectBody, hA, hH] at hok
      rw [← Except.ok.inj hok]
      exact ⟨rfl, rfl, rfl, rfl⟩

/-- C1 witness: the theorem applied to `txFull` with no loaded model and an
empty history. -/
theorem hybrid_score_weighted_blend_witness :
    detectBody none histEmpty "u1" txFull = .ok hybridResultFull ∧
    (hybridResultFull.risk_score = ml_weight *
        get_ml_prediction none txFull (histEmpty "u1") +
      rule_weight * get_rule_prediction histEmpty "u1" txFull ∧
    hybridResultFull.ml_score = get_ml_prediction none txFull (histEmpty "u1") ∧
    hybridResultFull.rule_score = get_rule_prediction histEmpty "u1" txFull ∧
    hybridResultFull.hybrid_analysis = some
      { ml_score := hybridResultFull.ml_score
        rule_score := hybridResultFull.rule_score
        hybrid_score := hybridResultFull.risk_score
        ml_weight := ml_weight
        rule_weight := rule_weight }) :=
  have hok : detectBody none histEmpty "u1" txFull = .ok hybridResultFull := by
    norm_num [detectBody, get_ml_prediction, get_rule_prediction, ml_weight,
      rule_weight, RuleBasedFraudDetector.detect_fraud,
      RuleBasedFraudDetector.detectBody, RuleBasedFraudDetector.get_user_statistics,
      RuleBasedFraudDetector.insufficientHistoryResult, hybridResultFull,
      histEmpty, txFull]
  ⟨hok, hybrid_score_weighted_blend none histEmpty "u1" txFull hybridResultFull hok⟩

/-- C2: on the non-exception path of `TrueHybridFraudDetector.detect_fraud`
the three decision fields always agree: HIGH/verify/block exactly when
`ml_score ≥ 0.3` or `rule_score ≥ 0.3` or `hybrid_score ≥ 0.4`, and
LOW/no-verify/no-block otherwise; no other combination is returned on that
path. -/
theorem decision_policy_trichotomy (model : Option MLModel) (h : Histories)
    (uid : String) (tx : Transaction) (r : HybridResult)
    (hok : detectBody model h uid tx = .ok r) :
    (((3/10 : ℚ) ≤ r.ml_score ∨ (3/10 : ℚ) ≤ r.rule_score ∨
        (2/5 : ℚ) ≤ r.risk_score) →
      r.risk_level = "HIGH" ∧ r.requires_verification = true ∧
        r.block_transaction = true) ∧
    (¬((3/10 : ℚ) ≤ r.ml_score ∨ (3/10 : ℚ) ≤ r.rule_score ∨
        (2/5 : ℚ) ≤ r.risk_score) →
      r.risk_level = "LOW" ∧ r.requires_verification = false ∧
        r.block_transaction = false) := by
  rcases hA : tx.amount with _ | amt
  · simp [detectBody, hA] at hok
  · rcases hH : tx.hour_of_day with _ | hod
    · simp [detectBody, hA, hH] at hok
    · simp only [detectBody, hA, hH] at hok
      rw [← Except.ok.inj hok]
      constructor
      · intro hc
        have hflag : (decide ((3/10 : ℚ) ≤ get_ml_prediction model tx (h uid)) ||
            decide ((3/10 : ℚ) ≤ get_rule_prediction h uid tx) ||
            decide ((2/5 : ℚ) ≤ ml_weight * get_ml_prediction model tx (h uid) +
              rule_weight * get_rule_prediction h uid tx)) = true := by
          simp only [Bool.or_eq_true, decide_eq_true_eq]
          exact or_assoc.mpr hc
        simp [hflag]
      · intro hc
        have hflag : (decide ((3/10 : ℚ) ≤ get_ml_prediction model tx (h uid)) ||
            decide ((3/10 : ℚ) ≤ get_rule_prediction h uid tx) ||
            decide ((2/5 : ℚ) ≤ ml_weight * get_ml_prediction model tx (h uid) +
              rule_weight * get_rule_prediction h uid tx)) = false := by
          simp only [Bool.or_eq_false_iff, decide_eq_false_iff_not]
          exact ⟨⟨fun hp => hc (Or.inl hp), fun hp => hc (Or.inr (Or.inl hp))⟩,
            fun hp => hc (Or.inr (Or.inr hp))⟩
        simp [hflag]

/-- C2 witness: the theorem applied to `txFull` with no loaded model and an
empty history, where the ml score 0.5 exceeds 0.3 and all three decision
fields come out HIGH/true/true. -/
theorem decision_policy_trichotomy_witness :
    detectBody none histEmpty "u1" txFull = .ok hybridResultFull ∧
    ((3/10 : ℚ) ≤ hybridResultFull.ml_score ∨
      (3/10 : ℚ) ≤ hybridResultFull.rule_score ∨
      (2/5 : ℚ) ≤ hybridResultFull.risk_score) ∧
    (hybridResultFull.risk_level = "HIGH" ∧
      hybridResultFull.requires_verification = true ∧
      hybridResultFull.block_transaction = true) :=
  have hok : detectBody none histEmpty "u1" txFull = .ok hybridResultFull := by
    norm_num [detectBody, get_ml_prediction, get_rule_prediction, ml_weight,
      rule_weight, RuleBasedFraudDetector.detect_fraud,
      RuleBasedFraudDetector.detectBody, RuleBasedFraudDetector.get_user_statistics,
      RuleBasedFraudDetector.insufficientHistoryResult, hybridResultFull,
      histEmpty, txFull]
  have hcond : (3/10 : ℚ) ≤ hybridResultFull.ml_score ∨
      (3/10 : ℚ) ≤ hybridResultFull.rule_score ∨
      (2/5 : ℚ) ≤ hybridResultFull.risk_score := by
    left; norm_num [hybridResultFull]
  ⟨hok, hcond,
    (decision_policy_trichotomy none histEmpty "u1" txFull hybridResultFull hok).1 hcond⟩

end TrueHybridFraudDetector

/-! ### Claim about default scores on failure -/

/-- C3 counterexample: for user u1 with three recorded API-style
transactions, the rule-based scoring step fails (its `try` body raises),
yet the returned default risk score is 0.1, not the 0.5 the claim
states. -/
theorem rule_failure_score_not_half :
    RuleBasedFraudDetector.detectBody hist3 "u1" txFull = .error () ∧
    (RuleBasedFraudDetector.detect_fraud hist3 "u1" txFull).hadError = true ∧
    (RuleBasedFraudDetector.detect_fraud hist3 "u1" txFull).risk_score = 1/10 ∧
    (RuleBasedFraudDetector.detect_fraud hist3 "u1" txFull).risk_score ≠ 1/2 := by
  have hlen : 3 ≤ (hist3 "u1").length := by simp [hist3]
  have hbody := RuleBasedFraudDetector.detectBody_error_of_history hist3 "u1" txFull hlen
  have hdf := RuleBasedFraudDetector.detect_fraud_of_history hist3 "u1" txFull hlen
  refine ⟨hbody, ?_, ?_, ?_⟩ <;> rw [hdf]
  · rfl
  · rfl
  · norm_num [RuleBasedFraudDetector.ruleExceptionResult]

/-- C3 (amended): on failure the detectors return fixed default scores —
the ML prediction path returns 0.5 when the model is not loaded, when
feature preparation fails, or when the prediction raises, and the outer
hybrid exception handler returns the fixed 0.5-score dict; the rule-based
detector's own exception handler, however, returns its fixed dict with
default score 0.1 (not 0.5). -/
theorem fraud_defaults_on_failure :
    (∀ tx hist, TrueHybridFraudDetector.get_ml_prediction none tx hist = 1/2) ∧
    (∀ m tx hist, TrueHybridFraudDetector.prepare_ml_features tx = none →
      TrueHybridFraudDetector.get_ml_prediction (some m) tx hist = 1/2) ∧
    (∀ m tx hist f, TrueHybridFraudDetector.prepare_ml_features tx = some f →
      m f = .error () →
      TrueHybridFraudDetector.get_ml_prediction (some m) tx hist = 1/2) ∧
    (∀ model h uid tx,
      TrueHybridFraudDetector.detectBody model h uid tx = .error () →
      TrueHybridFraudDetector.detect_fraud model h uid tx =
        TrueHybridFraudDetector.hybridExceptionResult) ∧
    (∀ h uid tx, RuleBasedFraudDetector.detectBody h uid tx = .error () →
      RuleBasedFraudDetector.detect_fraud h uid tx =
        RuleBasedFraudDetector.ruleExceptionResult) := by
  refine ⟨fun tx hist => rfl, ?_, ?_, ?_, ?_⟩
  · intro m tx hist hprep
    simp only [TrueHybridFraudDetector.get_ml_prediction, hprep]
  · intro m tx hist f hprep herr
    simp only [TrueHybridFraudDetector.get_ml_prediction, hprep, herr]
  · intro model h uid tx herr
    unfold TrueHybridFraudDetector.detect_fraud
    rw [herr]
  · intro h uid tx herr
    unfold RuleBasedFraudDetector.detect_fraud
    rw [herr]

/-- C3 (amended) witness: each failure mode exercised at a concrete input —
no model on `txFull`; failing feature preparation on `txNoAmount`; a
raising classifier on the prepared features of `txFull`; a raising hybrid
body on `txNoAmount` (its reason-building amount access raises); and the
rule detector's failing path on `hist3`, whose default score is 0.1. -/
theorem fraud_defaults_on_failure_witness :
    TrueHybridFraudDetector.get_ml_prediction none txFull [] = 1/2 ∧
    TrueHybridFraudDetector.prepare_ml_features txNoAmount = none ∧
    TrueHybridFraudDetector.get_ml_prediction (some mlFail) txNoAmount [] = 1/2 ∧
    TrueHybridFraudDetector.prepare_ml_features txFull = some mlFeaturesFull ∧
    mlFail mlFeaturesFull = .error () ∧
    TrueHybridFraudDetector.get_ml_prediction (some mlFail) txFull [] = 1/2 ∧
    TrueHybridFraudDetector.detectBody (some mlFail) histEmpty "u1" txNoAmount =
      .error () ∧
    TrueHybridFraudDetector.detect_fraud (some mlFail) histEmpty "u1" txNoAmount =
      TrueHybridFraudDetector.hybridExceptionResult ∧
    RuleBasedFraudDetector.detectBody hist3 "u1" txNoAmount = .error () ∧
    RuleBasedFraudDetector.detect_fraud hist3 "u1" txNoAmount =
      RuleBasedFraudDetector.ruleExceptionResult :=
  have hprepFail : TrueHybridFraudDetector.prepare_ml_features txNoAmount = none := rfl
  have hprepOk : TrueHybridFraudDetector.prepare_ml_features txFull =
      some mlFeaturesFull := by
    norm_num +decide [TrueHybridFraudDetector.prepare_ml_features,
      TrueHybridFraudDetector.amountBin, txFull, mlFeaturesFull]
  have hbody : TrueHybridFraudDetector.detectBody (some mlFail) histEmpty "u1"
      txNoAmount = .error () := rfl
  have hrb : RuleBasedFraudDetector.detectBody hist3 "u1" txNoAmount = .error () :=
    RuleBasedFraudDetector.detectBody_error_of_history hist3 "u1" txNoAmount
      (by simp [hist3])
  ⟨fraud_defaults_on_failure.1 txFull [],
   hprepFail,
   fraud_defaults_on_failure.2.1 mlFail txNoAmount [] hprepFail,
   hprepOk,
   rfl,
   fraud_defaults_on_failure.2.2.1 mlFail txFull [] mlFeaturesFull hprepOk rfl,
   hbody,
   fraud_defaults_on_failure.2.2.2.1 (some mlFail) histEmpty "u1" txNoAmount hbody,
   hrb,
   fraud_defaults_on_failure.2.2.2.2 hist3 "u1" txNoAmount hrb⟩

/-! ### Claims about risk-score ranges, history and the rule fallback -/

/-- C4: every risk score of the fraud-scoring path lies in [0,1]: the
rule-based risk_score is always one of the finitely many rule constants
0.0, 0.1, 0.4, 0.75, 0.8, 0.85, 0.9, and for ML and rule scores in [0,1]
the weighted hybrid blend `0.7 * ml + 0.3 * rule` also lies in [0,1]. -/
theorem risk_scores_within_range (h : Histories) (uid : String) (tx : Transaction)
    (ml rule : ℚ) (hml0 : 0 ≤ ml) (hml1 : ml ≤ 1) (hr0 : 0 ≤ rule) (hr1 : rule ≤ 1) :
    (RuleBasedFraudDetector.detect_fraud h uid tx).risk_score ∈
      ([0, 1/10, 2/5, 3/4, 4/5, 17/20, 9/10] : List ℚ) ∧
    0 ≤ (RuleBasedFraudDetector.detect_fraud h uid tx).risk_score ∧
    (RuleBasedFraudDetector.detect_fraud h uid tx).risk_score ≤ 1 ∧
    0 ≤ TrueHybridFraudDetector.ml_weight * ml +
      TrueHybridFraudDetector.rule_weight * rule ∧
    TrueHybridFraudDetector.ml_weight * ml +
      TrueHybridFraudDetector.rule_weight * rule ≤ 1 := by
  rw [RuleBasedFraudDetector.detect_fraud_risk_score]
  refine ⟨by norm_num, by norm_num, by norm_num, ?_, ?_⟩ <;>
    unfold TrueHybridFraudDetector.ml_weight TrueHybridFraudDetector.rule_weight <;>
    nlinarith

/-- C4 witness: the theorem at `hist3`, `txFull` and scores 0.5, 0.5. -/
theorem risk_scores_within_range_witness :
    ((0 : ℚ) ≤ 1/2 ∧ (1/2 : ℚ) ≤ 1) ∧
    ((RuleBasedFraudDetector.detect_fraud hist3 "u1" txFull).risk_score ∈
      ([0, 1/10, 2/5, 3/4, 4/5, 17/20, 9/10] : List ℚ) ∧
    0 ≤ (RuleBasedFraudDetector.detect_fraud hist3 "u1" txFull).risk_score ∧
    (RuleBasedFraudDetector.detect_fraud hist3 "u1" txFull).risk_score ≤ 1 ∧
    0 ≤ TrueHybridFraudDetector.ml_weight * (1/2) +
      TrueHybridFraudDetector.rule_weight * (1/2) ∧
    TrueHybridFraudDetector.ml_weight * (1/2) +
      TrueHybridFraudDetector.rule_weight * (1/2) ≤ 1) :=
  ⟨⟨by norm_num, by norm_num⟩,
   risk_scores_within_range hist3 "u1" txFull (1/2) (1/2)
     (by norm_num) (by norm_num) (by norm_num) (by norm_num)⟩

/-- C5: for every user with at least 3 recorded transactions and every
transaction dict produced by the API's `prepare_transaction_data` (which
carries `hour_of_day` but no `hour` key), the rule-based detector returns
its exception-fallback dict (risk 0.1, LOW, no verification, no block)
rather than the output of any fraud rule: rule evaluation reads
`transaction['hour']` and the undefined `FRAUD_THRESHOLDS['block_threshold']`
key. -/
theorem api_prepared_tx_hits_rule_fallback (h : Histories) (uid : String)
    (d : Transaction) (hlen : 3 ≤ (h uid).length) :
    RuleBasedFraudDetector.detect_fraud h uid
      (FraudServer.prepare_transaction_data d) =
      RuleBasedFraudDetector.ruleExceptionResult ∧
    (FraudServer.prepare_transaction_data d).hour = none ∧
    FRAUD_THRESHOLDS "block_threshold" = none :=
  ⟨RuleBasedFraudDetector.detect_fraud_of_history h uid _ hlen, rfl, by decide⟩

/-- C5 witness: the theorem at `hist3` and the API preparation of
`txFull`. -/
theorem api_prepared_tx_hits_rule_fallback_witness :
    3 ≤ (hist3 "u1").length ∧
    RuleBasedFraudDetector.detect_fraud hist3 "u1"
      (FraudServer.prepare_transaction_data txFull) =
      RuleBasedFraudDetector.ruleExceptionResult ∧
    (FraudServer.prepare_transaction_data txFull).hour = none ∧
    FRAUD_THRESHOLDS "block_threshold" = none :=
  have hlen : 3 ≤ (hist3 "u1").length := by simp [hist3]
  ⟨hlen, (api_prepared_tx_hits_rule_fallback hist3 "u1" txFull hlen).1,
   (api_prepared_tx_hits_rule_fallback hist3 "u1" txFull hlen).2.1,
   (api_prepared_tx_hits_rule_fallback hist3 "u1" txFull hlen).2.2⟩

/-- C7: adding a transaction to the history appends it at the end of that
user's list (a singleton when the user was absent) and leaves every other
user's history unchanged; the hybrid detector's method delegates to the
rule detector's. -/
theorem add_history_frame (h : Histories) (uid : String) (tx : Transaction) :
    TrueHybridFraudDetector.add_transaction_to_history h uid tx uid =
      h uid ++ [tx] ∧
    (∀ u, u ≠ uid →
      TrueHybridFraudDetector.add_transaction_to_history h uid tx u = h u) ∧
    TrueHybridFraudDetector.add_transaction_to_history h uid tx =
      RuleBasedFraudDetector.add_transaction_to_history h uid tx := by
  refine ⟨?_, ?_, rfl⟩
  · simp [TrueHybridFraudDetector.add_transaction_to_history,
      RuleBasedFraudDetector.add_transaction_to_history]
  · intro u hu
    simp [TrueHybridFraudDetector.add_transaction_to_history,
      RuleBasedFraudDetector.add_transaction_to_history, hu]

/-- C7 witness: the theorem at the empty history, user u1 and the bystander
user u2. -/
theorem add_history_frame_witness :
    TrueHybridFraudDetector.add_transaction_to_history histEmpty "u1" txFull "u1" =
      histEmpty "u1" ++ [txFull] ∧
    ("u2" : String) ≠ "u1" ∧
    TrueHybridFraudDetector.add_transaction_to_history histEmpty "u1" txFull "u2" =
      histEmpty "u2" :=
  ⟨(add_history_frame histEmpty "u1" txFull).1, by decide,
   (add_history_frame histEmpty "u1" txFull).2.1 "u2" (by decide)⟩

/-- C10: for every user with fewer than 3 recorded transactions (including
absent users), `get_user_statistics` returns `None` and the rule-based
`detect_fraud` returns the insufficient-history dict (risk 0.1, LOW, no
verification, no block, message Insufficient transaction history),
regardless of the transaction's contents. -/
theorem insufficient_history_low_result (h : Histories) (uid : String)
    (tx : Transaction) (hlen : (h uid).length < 3) :
    RuleBasedFraudDetector.get_user_statistics h uid = .ok none ∧
    RuleBasedFraudDetector.detect_fraud h uid tx =
      RuleBasedFraudDetector.insufficientHistoryResult :=
  ⟨RuleBasedFraudDetector.get_user_statistics_of_short h uid hlen,
   RuleBasedFraudDetector.detect_fraud_of_short h uid tx hlen⟩

/-- C10 witness: the theorem at the empty history (an absent user). -/
theorem insufficient_history_low_result_witness :
    (histEmpty "u1").length < 3 ∧
    RuleBasedFraudDetector.get_user_statistics histEmpty "u1" = .ok none ∧
    RuleBasedFraudDetector.detect_fraud histEmpty "u1" txFull =
      RuleBasedFraudDetector.insufficientHistoryResult :=
  have hlen : (histEmpty "u1").length < 3 := by decide
  ⟨hlen, (insufficient_history_low_result histEmpty "u1" txFull hlen).1,
   (insufficient_history_low_result histEmpty "u1" txFull hlen).2⟩

/-! ### Ranking lemmas and claims -/

namespace RankingApi

theorem assignRanks_map_clearRank : ∀ (l : List RankedCardholder) (i : ℕ),
    (assignRanks i l).map clearRank = l.map clearRank := by
  intro l
  induction l with
  | nil => intro i; rfl
  | cons r rs ih => intro i; cases r; simp [assignRanks, clearRank, ih (i + 1)]

theorem assignRanks_map_health : ∀ (l : List RankedCardholder) (i : ℕ),
    (assignRanks i l).map (fun r => r.health_score) =
      l.map (fun r => r.health_score) := by
  intro l
  induction l with
  | nil => intro i; rfl
  | cons r rs ih => intro i; cases r; simp [assignRanks, ih (i + 1)]

theorem assignRanks_map_rank : ∀ (l : List RankedCardholder) (i : ℕ),
    (assignRanks i l).map (fun r => r.rank) = List.range' i l.length := by
  intro l
  induction l with
  | nil => intro i; rfl
  | cons r rs ih => intro i; simp [assignRanks, ih (i + 1), List.range']

theorem rank_cardholders_length (model : HealthModel) (cs : List Cardholder) :
    (rank_cardholders model cs).length = cs.length := by
  have h1 := congrArg List.length (assignRanks_map_rank
    ((cs.map (scoreCardholder model)).mergeSort
      (fun a b => decide (b.health_score ≤ a.health_score))) 1)
  simp only [List.length_map, List.length_range'] at h1
  unfold rank_cardholders
  simpa using h1

/-- C6: `rank_cardholders` returns exactly the scored input cardholders
(a permutation of them), sorted by health score in non-increasing order,
with the i-th entry (0-based) carrying rank i + 1 — so the ranks are
exactly 1..n and the highest health score gets rank 1. -/
theorem rank_cardholders_sorted_ranked (model : HealthModel)
    (cs : List Cardholder) :
    List.Perm ((rank_cardholders model cs).map clearRank)
      (cs.map (scoreCardholder model)) ∧
    List.Pairwise (fun a b : ℚ => b ≤ a)
      ((rank_cardholders model cs).map (fun r => r.health_score)) ∧
    (rank_cardholders model cs).map (fun r => r.rank) =
      List.range' 1 cs.length := by
  unfold rank_cardholders
  refine ⟨?_, ?_, ?_⟩
  · rw [assignRanks_map_clearRank]
    have hperm := (List.mergeSort_perm (cs.map (scoreCardholder model))
      (fun a b => decide (b.health_score ≤ a.health_score))).map clearRank
    refine hperm.trans ?_
    rw [List.map_map]
    exact List.Perm.refl _
  · rw [assignRanks_map_health]
    rw [List.pairwise_map]
    have hs := @List.sorted_mergeSort RankedCardholder
      (fun a b => decide (b.health_score ≤ a.health_score))
      (by
        intro a b c hab hbc
        simp only [decide_eq_true_eq] at hab hbc ⊢
        exact le_trans hbc hab)
      (by
        intro a b
        simp only [Bool.or_eq_true, decide_eq_true_eq]
        exact le_total _ _)
      (cs.map (scoreCardholder model))
    exact hs.imp (by intro a b hab; simpa using hab)
  · rw [assignRanks_map_rank]
    rw [List.length_mergeSort, List.length_map]

/-- C9: `/rank-top` answers HTTP 400 exactly when `top_k` lies outside
[1, 100]; in range, the response carries the first `top_k` entries of the
full ranked list and `total_cardholders` equal to the number of submitted
cardholders. -/
theorem rank_top_policy (model : HealthModel) (cs : List Cardholder)
    (top_k : ℤ) :
    (get_top_cardholders model cs top_k =
        .error { status := 400, detail := "top_k must be between 1 and 100" } ↔
      (top_k < 1 ∨ 100 < top_k)) ∧
    (1 ≤ top_k → top_k ≤ 100 →
      get_top_cardholders model cs top_k =
        .ok { total_cardholders := cs.length
              top_k := top_k
              top_cardholders :=
                (rank_cardholders model cs).take top_k.toNat }) := by
  unfold get_top_cardholders
  by_cases hc : top_k < 1 ∨ 100 < top_k
  · rw [if_pos hc]
    refine ⟨⟨fun _ => hc, fun _ => rfl⟩, ?_⟩
    intro h1 h2
    rcases hc with hc | hc <;> omega
  · rw [if_neg hc]
    refine ⟨⟨fun hcon => absurd hcon (by simp), fun hcon => absurd hcon hc⟩, ?_⟩
    intro h1 h2
    simp only [rank_cardholders_length]

/-- C9 witness: the theorem at a singleton batch, at the rejected value
`top_k = 0` and the accepted value `top_k = 5`. -/
theorem rank_top_policy_witness :
    (get_top_cardholders constHealth [cardEx] 0 =
        .error { status := 400, detail := "top_k must be between 1 and 100" } ↔
      ((0 : ℤ) < 1 ∨ 100 < (0 : ℤ))) ∧
    ((1 : ℤ) ≤ 5 ∧ (5 : ℤ) ≤ 100) ∧
    get_top_cardholders constHealth [cardEx] 5 =
      .ok { total_cardholders := [cardEx].length
            top_k := 5
            top_cardholders :=
              (rank_cardholders constHealth [cardEx]).take (5 : ℤ).toNat } :=
  ⟨(rank_top_policy constHealth [cardEx] 0).1,
   ⟨by decide, by decide⟩,
   (rank_top_policy constHealth [cardEx] 5).2 (by decide) (by decide)⟩

end RankingApi

/-! ### Batch endpoint lemmas and claim -/

namespace FraudServer

theorem lookup_user_id_fails :
    lookupLocal batchScopeNames "user_id" =
      .error "NameError: name user_id is not defined" := by decide

theorem batchLoop_results_nil (model : Option TrueHybridFraudDetector.MLModel) :
    ∀ (ds : List Transaction) (h : Histories) (i : ℕ),
    (batchLoop model h i ds).2.1 = [] ∧
    (batchLoop model h i ds).2.2.length = ds.length := by
  intro ds
  induction ds with
  | nil => intro h i; simp [batchLoop]
  | cons d0 ds ih =>
    intro h i
    unfold batchLoop
    cases hv : validate_transaction_data d0 with
    | error msg => simp [hv, ih h (i + 1)]
    | ok u =>
      cases u
      simp [hv, lookup_user_id_fails, ih h (i + 1)]

theorem batchLoop_valid_in_errors (model : Option TrueHybridFraudDetector.MLModel) :
    ∀ (ds : List Transaction) (h : Histories) (i j : ℕ) (d : Transaction),
    ds.get? j = some d → validate_transaction_data d = .ok () →
    (i + j, BatchErr.processing "NameError: name user_id is not defined") ∈
      (batchLoop model h i ds).2.2 := by
  intro ds
  induction ds with
  | nil => intro h i j d hget; simp at hget
  | cons d0 ds ih =>
    intro h i j d hget hval
    cases j with
    | zero =>
      simp only [List.get?] at hget
      obtain rfl : d0 = d := by injection hget
      unfold batchLoop
      rw [hval]
      rw [lookup_user_id_fails]
      simp
    | succ j =>
      have hget' : ds.get? j = some d := by simpa using hget
      have hmem := ih h (i + 1) j d hget' hval
      have hidx : i + (j + 1) = (i + 1) + j := by omega
      unfold batchLoop
      cases hv : validate_transaction_data d0 with
      | error msg =>
        simp only []
        rw [hidx]
        exact List.mem_cons_of_mem _ hmem
      | ok u =>
        cases u
        rw [lookup_user_id_fails]
        simp only []
        rw [hidx]
        exact List.mem_cons_of_mem _ hmem

/-- C8: for every batch request within the size limit, the response has
empty `results` and `successful = 0`, with `failed` covering all
transactions, and every transaction that passes validation is reported in
the errors list with a processing NameError — the per-transaction
processing at line 246 reads the name `user_id`, which is bound nowhere in
scope. -/
theorem batch_all_transactions_fail (model : Option TrueHybridFraudDetector.MLModel)
    (h : Histories) (txs : List Transaction) (resp : BatchResponse)
    (hlen : txs.length ≤ 100)
    (hok : detect_fraud_batch model h txs = .ok resp) :
    resp.results = [] ∧ resp.successful = 0 ∧ resp.failed = txs.length ∧
    resp.blocked = 0 ∧ resp.allowed = 0 ∧
    (∀ j d, txs.get? j = some d → validate_transaction_data d = .ok () →
      (j, BatchErr.processing "NameError: name user_id is not defined") ∈
        resp.errors) := by
  unfold detect_fraud_batch at hok
  rw [if_neg (by omega)] at hok
  rw [← Except.ok.inj hok]
  obtain ⟨hres, hcnt⟩ := batchLoop_results_nil model txs h 0
  refine ⟨hres, ?_, hcnt, ?_, ?_, ?_⟩
  · simp [hres]
  · simp [hres]
  · simp [hres]
  · intro j d hget hval
    simpa using batchLoop_valid_in_errors model txs h 0 j d hget hval

/-- C8 witness: a two-element batch (one valid transaction, one missing its
amount): both land in the errors list, the valid one with the NameError
processing message. -/
theorem batch_all_transactions_fail_witness :
    ([txFull, txNoAmount] : List Transaction).length ≤ 100 ∧
    detect_fraud_batch none histEmpty [txFull, txNoAmount] =
      .ok { results := []
            errors := [(0, .processing "NameError: name user_id is not defined"),
                       (1, .validation "Missing required fields: amount")]
            total_transactions := 2
            successful := 0
            failed := 2
            blocked := 0
            allowed := 0 } ∧
    validate_transaction_data txFull = .ok () ∧
    ([txFull, txNoAmount] : List Transaction).get? 0 = some txFull ∧
    (0, BatchErr.processing "NameError: name user_id is not defined") ∈
      ({ results := ([] : List (ℕ × TrueHybridFraudDetector.HybridResult))
         errors := [(0, .processing "NameError: name user_id is not defined"),
                    (1, .validation "Missing required fields: amount")]
         total_transactions := 2
         successful := 0
         failed := 2
         blocked := 0
         allowed := 0 } : BatchResponse).errors :=
  have hok : detect_fraud_batch none histEmpty [txFull, txNoAmount] =
      .ok { results := []
            errors := [(0, .processing "NameError: name user_id is not defined"),
                       (1, .validation "Missing required fields: amount")]
            total_transactions := 2
            successful := 0
            failed := 2
            blocked := 0
            allowed := 0 } := by decide
  ⟨by decide, hok, by decide, rfl,
   (batch_all_transactions_fail none histEmpty [txFull, txNoAmount] _
      (by decide) hok).2.2.2.2.2 0 txFull rfl (by decide)⟩

end FraudServer
